import Mathlib

/-!
Verification of the core behaviour of the pdftextextractor application.

The Lean definitions below are shallow embeddings of the Python modules
`core/history_manager.py`, `core/extractor.py`, `core/chat_engine.py` and
`core/summarizer.py`.  External collaborators (the PDF rasterizer, the two
remote vision / chat endpoints, the filesystem) are modelled as fields of an
environment record; a collaborator call that may raise a Python exception is
modelled as a value of type `Except String _` (the `error` case carries the
exception message, i.e. `str(e)`).  Python strings are Lean `String`s; byte
strings (PNG images) are also represented by `String`, since only their
identity matters to the control flow.
-/

/-! ## Python string primitives -/

/-- Python `str.strip()`: remove whitespace from both ends.
(Whitespace is approximated by `Char.isWhitespace`, which covers the ASCII
whitespace characters that matter here.) -/
def pyStrip (s : String) : String :=
  String.mk (((s.data.dropWhile Char.isWhitespace).reverse.dropWhile
      Char.isWhitespace).reverse)

/-- Python `str.lower()` (ASCII case folding, which is all the code relies on
for the `.pdf` / `.docx` extension comparison). -/
def pyLower (s : String) : String := String.mk (s.data.map Char.toLower)

/-- Python `s[:n]`: the first `n` characters (code points) of `s`. -/
def pySlice (s : String) (n : Nat) : String := String.mk (s.data.take n)

/-- Index of the last occurrence of `c` in `l`, or `none`. Models Python
`str.rfind` restricted to single-character needles. -/
def lastIndexOf (c : Char) : List Char → Option Nat
  | [] => none
  | x :: xs =>
    match lastIndexOf c xs with
    | some i => some (i + 1)
    | none => if x = c then some 0 else none

/-- Python `rfind` convention: `-1` when the character does not occur. -/
def idxOr (o : Option Nat) : Int :=
  match o with
  | none => -1
  | some i => (i : Int)

/-- Python `os.path.splitext` on a POSIX path (`sep = '/'`, no `altsep`):
split off the extension at the last dot, unless every character between the
last path separator and that dot is itself a dot (so `".bashrc"` has no
extension).  Mirrors CPython `genericpath._splitext`. -/
def splitext (p : String) : String × String :=
  let l := p.data
  let sepIdx := idxOr (lastIndexOf '/' l)
  let dotIdx := idxOr (lastIndexOf '.' l)
  if dotIdx > sepIdx then
    let window := (l.drop (sepIdx + 1).toNat).take (dotIdx - sepIdx - 1).toNat
    if window.any (fun c => c ≠ '.') then
      (String.mk (l.take dotIdx.toNat), String.mk (l.drop dotIdx.toNat))
    else (p, "")
  else (p, "")

/-! ## History store (`core/history_manager.py`, class `HistoryManager`)

`history_data` is a Python dict `feature -> list of entries`; we model it as
an insertion-ordered association list, which is exactly the observable
behaviour of a Python dict.  An entry is a dict
`{"timestamp": ..., "file_name": ..., "details": ...}`; only `file_name` is
read by the functions under verification, `details` is never inspected and is
omitted. -/

/-- One history entry (`add_entry` creates
`{"timestamp": ..., "file_name": ..., "details": ...}`). -/
structure HEntry where
  timestamp : String
  file_name : String

/-- The `history_data` mapping: a dict from feature name to entry list. -/
abbrev HistoryData := List (String × List HEntry)

/-- Python `feature in self.history_data`. -/
def hdMem (h : HistoryData) (f : String) : Bool :=
  h.any (fun kv => kv.1 == f)

/-- Python `self.history_data[feature]` as a partial lookup. -/
def hdFind (h : HistoryData) (f : String) : Option (List HEntry) :=
  (h.find? (fun kv => kv.1 == f)).map (fun kv => kv.2)

/-- Python `self.history_data[feature] = v` (update in place, or append a new
key at the end, as a Python dict does). -/
def hdSet : HistoryData → String → List HEntry → HistoryData
  | [], f, v => [(f, v)]
  | kv :: rest, f, v =>
    if kv.1 == f then (kv.1, v) :: rest else kv :: hdSet rest f v

/-- `HistoryManager._initialize_history`: the four named features, each with
an empty list. -/
def init_history : HistoryData :=
  [("pdf_to_text", []), ("audio_to_text", []), ("chat_with_doc", []),
   ("summarizer", [])]

/-- The `for entry in reversed(entries)` loop of
`HistoryManager.get_recent_files`.  `seen` is the Python set of already
collected names, modelled by the list of its elements. -/
def grfLoop (limit : Nat) : List HEntry → List String → List String → List String
  | [], files, _ => files
  | e :: rest, files, seen =>
    if e.file_name ∉ seen ∧ files.length < limit then
      grfLoop limit rest (files ++ [e.file_name]) (e.file_name :: seen)
    else
      grfLoop limit rest files seen

/-- `HistoryManager.get_recent_files(feature, limit)`. -/
def get_recent_files (h : HistoryData) (feature : String) (limit : Nat) :
    List String :=
  if hdMem h feature = false then []
  else grfLoop limit (((hdFind h feature).getD []).reverse) [] []

/-- `HistoryManager.clear_history(feature)`; `none` models calling it with no
feature argument.  (The subsequent `_save_history` call only performs file
output and is not part of the in-memory state transition.) -/
def clear_history (h : HistoryData) : Option String → HistoryData
  | some f => if hdMem h f then hdSet h f [] else h
  | none => init_history

/-- Specification-side first-occurrence deduplication: keep the first
occurrence of each name, in order. -/
def dedupFirst : List String → List String
  | [] => []
  | x :: xs => x :: dedupFirst (xs.filter (fun y => decide (y ≠ x)))
  termination_by l => l.length
  decreasing_by
    simp only [List.length_cons]
    exact Nat.lt_succ_of_le (List.length_filter_le _ _)

/-! ## Vision-OCR extractors (`core/extractor.py`)

`progress_callback` only receives status strings and returns `None`; it is
modelled as a no-op (claims about it are not in scope).  Each collaborator
call appears as an environment field; calls the Python code places inside a
`try`/`except` block have their `Except.error` case converted to a returned
marker string, calls outside any `try` propagate their error. -/

/-- The literal page separator used by both vision extractors. -/
def pageBreakSep : String := "\n\n--- Page Break ---\n\n"

/-- Python `f"Page {page_num + 1}/{total_pages}"`. -/
def pageInfo (i total : Nat) : String :=
  "Page " ++ toString (i + 1) ++ "/" ++ toString total

/-- Python `f"[No text found on {current_page_info}]"`. -/
def noTextMark (i total : Nat) : String :=
  "[No text found on " ++ pageInfo i total ++ "]"

/-- Python `f"[Error processing {current_page_info}: {str(e)}]"`. -/
def errMark (i total : Nat) (e : String) : String :=
  "[Error processing " ++ pageInfo i total ++ ": " ++ e ++ "]"

/-- Environment of `GeminiPDFExtractor.extract_text`:
* `keyAvailable` — `self.config.is_available()` (`bool(GEMINI_API_KEY)`);
* `configure` — `self.config.configure()` (`genai.configure`), outside `try`;
* `openPdf` — `fitz.open(file_path)` followed by `len(pdf_document)`:
  the page count, or the exception message (inside `try`);
* `mkModel` — `genai.GenerativeModel(self.model_name)`, outside `try`;
* `raster` — `load_page` / `get_pixmap(dpi=300)` / `tobytes("png")` for a
  page: the PNG bytes, or the exception message (inside the page `try`);
* `remote` — `model.generate_content([prompt, image_part]).text` on the PNG
  bytes: the returned text, or the exception message (inside the page `try`);
* `closeDoc` — `pdf_document.close()`, outside `try` (only executed when
  `if pdf_document:` is truthy, i.e. the page count is nonzero). -/
structure GeminiEnv where
  keyAvailable : Bool
  configure : Except String Unit
  openPdf : Except String Nat
  mkModel : Except String Unit
  raster : Nat → Except String String
  remote : String → Except String String
  closeDoc : Except String Unit

/-- The body of the per-page `try`/`except` in
`GeminiPDFExtractor.extract_text`: the string appended to
`all_pages_text_content` for page `i` of `total`. -/
def geminiPage (env : GeminiEnv) (total i : Nat) : String :=
  match env.raster i with
  | .error e => errMark i total e
  | .ok img =>
    match env.remote img with
    | .error e => errMark i total e
    | .ok t => if pyStrip t = "" then noTextMark i total else t

/-- `GeminiPDFExtractor.extract_text`.  The result is `Except.error e` when a
collaborator exception propagates out of the method, and `Except.ok s` when
the method returns the string `s`. -/
def gemini_extract_text (env : GeminiEnv) : Except String String :=
  if env.keyAvailable = false then .ok "[Error: Gemini API key not configured]"
  else
    match env.configure with
    | .error e => .error e
    | .ok _ =>
      match env.openPdf with
      | .error e => .ok ("[Error: " ++ e ++ "]")
      | .ok total =>
        match env.mkModel with
        | .error e => .error e
        | .ok _ =>
          let parts := (List.range total).map (geminiPage env total)
          match (if total ≠ 0 then env.closeDoc else .ok ()) with
          | .error e => .error e
          | .ok _ => .ok (String.intercalate pageBreakSep parts)

/-- Environment of `OpenAIPDFExtractor.extract_text`.  Additional fields:
* `mkClient` — `OpenAI(api_key=...)`, outside `try`;
* `tempWrite` — writing the page PNG to `outputs/temp_images/temp_page_i.png`
  and re-opening it (inside the page `try`); on success the bytes read back
  are the bytes written;
* `b64` — `base64.b64encode(...).decode("utf-8")`;
* `remote` — `client.chat.completions.create(...)` followed by
  `response.choices[0].message.content`, applied to the image data URI
  embedded in the user message (inside the page `try`).
The post-page `os.remove` sits in its own `try`/`except: pass` and cannot
affect the result, so it is not modelled. -/
structure OpenAIEnv where
  keyAvailable : Bool
  configure : Except String Unit
  mkClient : Except String Unit
  openPdf : Except String Nat
  raster : Nat → Except String String
  tempWrite : Nat → String → Except String Unit
  b64 : String → String
  remote : String → Except String String
  closeDoc : Except String Unit

/-- The body of the per-page `try`/`except` in
`OpenAIPDFExtractor.extract_text`. -/
def openaiPage (env : OpenAIEnv) (total i : Nat) : String :=
  match env.raster i with
  | .error e => errMark i total e
  | .ok img =>
    match env.tempWrite i img with
    | .error e => errMark i total e
    | .ok _ =>
      match env.remote ("data:image/png;base64," ++ env.b64 img) with
      | .error e => errMark i total e
      | .ok t => if pyStrip t = "" then noTextMark i total else t

/-- `OpenAIPDFExtractor.extract_text`. -/
def openai_extract_text (env : OpenAIEnv) : Except String String :=
  if env.keyAvailable = false then .ok "[Error: OpenAI API key not configured]"
  else
    match env.configure with
    | .error e => .error e
    | .ok _ =>
      match env.mkClient with
      | .error e => .error e
      | .ok _ =>
        match env.openPdf with
        | .error e => .ok ("[Error: " ++ e ++ "]")
        | .ok total =>
          let parts := (List.range total).map (openaiPage env total)
          match (if total ≠ 0 then env.closeDoc else .ok ()) with
          | .error e => .error e
          | .ok _ => .ok (String.intercalate pageBreakSep parts)

/-- Environment of `LangchainPDFExtractor.extract_text`: `loadPdf` models
`PyPDFLoader(file_path).load()` (the list of section `page_content`s, or the
exception message).  The whole body is inside one `try`. -/
structure LangchainEnv where
  loadPdf : Except String (List String)

/-- `LangchainPDFExtractor.extract_text`. -/
def langchain_extract_text (env : LangchainEnv) : Except String String :=
  match env.loadPdf with
  | .ok docs => .ok (docs.foldl (fun acc d => acc ++ d ++ "\n\n") "")
  | .error e => .ok ("[Error: Error loading PDF: " ++ e ++ "]")

/-- Environment of `DocxExtractor.extract_text`: `openDocx` models
`Document(file_path)` and the paragraph walk (the list of paragraph texts, or
the exception message).  The whole body is inside one `try`. -/
structure DocxEnv where
  openDocx : Except String (List String)

/-- `DocxExtractor.extract_text`. -/
def docx_extract_text (env : DocxEnv) : Except String String :=
  match env.openDocx with
  | .ok paras => .ok (String.intercalate "\n" paras)
  | .error e => .ok ("[Error: Error reading DOCX file: " ++ e ++ "]")

/-- A concrete `ExtractorStrategy` instance together with the behaviour of
its collaborators. -/
inductive Strategy where
  | langchain (env : LangchainEnv)
  | gemini (env : GeminiEnv)
  | openai (env : OpenAIEnv)
  | docx (env : DocxEnv)

/-- Dynamic dispatch `self.strategy.extract_text(...)`. -/
def strategy_extract_text : Strategy → Except String String
  | .langchain env => langchain_extract_text env
  | .gemini env => gemini_extract_text env
  | .openai env => openai_extract_text env
  | .docx env => docx_extract_text env

/-- `DocumentProcessor.process`; `none` models `self.strategy is None`. -/
def process : Option Strategy → Except String String
  | none => .ok "[Error: No extraction strategy selected]"
  | some s => strategy_extract_text s

/-! ## Document loader and chat engines (`core/chat_engine.py`)

A document chunk only ever has its `page_content` read, so a chunk is
modelled by that string. -/

/-- Collaborators of `DocumentLoader.load_document`:
* `loadPdf` — `PyPDFLoader(file_path).load()` (inside `try`);
* `loadDocx` — `Docx2txtLoader(file_path).load()` (inside `try`);
* `split` — `RecursiveCharacterTextSplitter(chunk_size=5000,
  chunk_overlap=500).split_documents(documents)` (inside `try`). -/
structure LoaderEnv where
  loadPdf : Except String (List String)
  loadDocx : Except String (List String)
  split : List String → Except String (List String)

/-- `DocumentLoader.load_document(file_path)`: returns the Python pair
`(chunks, error)`. -/
def load_document (env : LoaderEnv) (file_path : String) :
    Option (List String) × Option String :=
  if pyLower (splitext file_path).2 = ".pdf" then
    match env.loadPdf with
    | .error e => (none, some ("Error loading document: " ++ e))
    | .ok docs =>
      match env.split docs with
      | .error e => (none, some ("Error loading document: " ++ e))
      | .ok chunks => (some chunks, none)
  else if pyLower (splitext file_path).2 = ".docx" then
    match env.loadDocx with
    | .error e => (none, some ("Error loading document: " ++ e))
    | .ok docs =>
      match env.split docs with
      | .error e => (none, some ("Error loading document: " ++ e))
      | .ok chunks => (some chunks, none)
  else (none, some "Unsupported file type")

/-- `_get_document_context(chunks, query, max_chunks=5)`, identical in
`GeminiChatEngine` and `OpenAIChatEngine` (the `query` argument is accepted
and ignored by the source, so it is not a parameter here). -/
def get_document_context (chunks : List String) (max_chunks : Nat) : String :=
  (chunks.take max_chunks).foldl (fun acc c => acc ++ c ++ "\n\n") ""

/-- The f-string prompt template of `GeminiChatEngine.generate_response`
(two of the literal lines end in a trailing space, as in the source). -/
def gemini_chat_prompt (context query : String) : String :=
  "\n        You are a helpful AI assistant that answers questions based on the provided document.\n        \n        DOCUMENT CONTENT:\n        "
    ++ context
    ++ "\n        \n        USER QUESTION: "
    ++ query
    ++ "\n        \n        Based only on the document content above, provide a helpful, accurate response. \n        If the document doesn\x27t contain relevant information to answer the question, \n        say \"I don\x27t have enough information in the document to answer this question.\"\n        "

/-- The f-string system prompt of `OpenAIChatEngine.generate_response`. -/
def openai_chat_system_prompt (context : String) : String :=
  "\n        You are a helpful AI assistant that answers questions based on the provided document.\n        \n        DOCUMENT CONTENT:\n        "
    ++ context
    ++ "\n        \n        Based only on the document content above, provide a helpful, accurate response. \n        If the document doesn\x27t contain relevant information to answer the question, \n        say \"I don\x27t have enough information in the document to answer this question.\"\n        "

/-- Collaborators of `GeminiChatEngine.generate_response`:
`configure` and `mkModel` are outside any `try`; `remote` models
`model.generate_content(prompt).text` (inside `try`). -/
structure GeminiChatEnv where
  keyAvailable : Bool
  configure : Except String Unit
  mkModel : Except String Unit
  remote : String → Except String String

/-- `GeminiChatEngine.generate_response(query, document_chunks, history)`.
The `history` argument is accepted and never used by this backend, exactly as
in the source. -/
def gemini_generate_response (env : GeminiChatEnv) (query : String)
    (document_chunks : List String) (_history : List String) :
    Except String String :=
  if document_chunks.isEmpty then .ok "Please upload a document first."
  else if env.keyAvailable = false then
    .ok "[Error: Gemini API key not configured]"
  else
    match env.configure with
    | .error e => .error e
    | .ok _ =>
      match env.mkModel with
      | .error e => .error e
      | .ok _ =>
        let context := get_document_context document_chunks 5
        let prompt := gemini_chat_prompt context query
        match env.remote prompt with
        | .ok t => .ok t
        | .error e => .ok ("Error: Error generating response: " ++ e)

/-- The `for i in range(0, len(history), 2)` loop of
`OpenAIChatEngine.generate_response`: the role-tagged pairs appended to the
message list (a trailing unpaired element is dropped). -/
def historyPairs : List String → List (String × String)
  | u :: a :: rest => ("user", u) :: ("assistant", a) :: historyPairs rest
  | _ => []

/-- Collaborators of `OpenAIChatEngine.generate_response`: `configure` and
`mkClient` are outside any `try`; `remote` models
`client.chat.completions.create(...).choices[0].message.content` applied to
the full role-tagged message list (inside `try`). -/
structure OpenAIChatEnv where
  keyAvailable : Bool
  configure : Except String Unit
  mkClient : Except String Unit
  remote : List (String × String) → Except String String

/-- `OpenAIChatEngine.generate_response(query, document_chunks, history)`. -/
def openai_generate_response (env : OpenAIChatEnv) (query : String)
    (document_chunks : List String) (history : List String) :
    Except String String :=
  if document_chunks.isEmpty then .ok "Please upload a document first."
  else if env.keyAvailable = false then
    .ok "[Error: OpenAI API key not configured]"
  else
    match env.configure with
    | .error e => .error e
    | .ok _ =>
      match env.mkClient with
      | .error e => .error e
      | .ok _ =>
        let context := get_document_context document_chunks 5
        let messages := ("system", openai_chat_system_prompt context)
            :: ("user", query) :: historyPairs history
        match env.remote messages with
        | .ok t => .ok t
        | .error e => .ok ("Error: Error generating response: " ++ e)

/-! ## Summarizers (`core/summarizer.py`) -/

/-- The `for chunk in document_chunks` accumulation shared by both
summarizers: all chunks concatenated, each followed by a blank line. -/
def combined_document_text (chunks : List String) : String :=
  chunks.foldl (fun acc c => acc ++ c ++ "\n\n") ""

/-- `_get_summary_instruction(summary_type)`, identical in both
summarizers. -/
def get_summary_instruction (summary_type : String) : String :=
  if summary_type = "concise" then
    "Create a very concise summary of the document in 3-5 sentences."
  else if summary_type = "detailed" then
    "Create a detailed summary of the document covering the main points and key details."
  else if summary_type = "executive" then
    "Create an executive summary of the document with key findings, conclusions, and recommendations."
  else if summary_type = "bullet" then
    "Create a bullet-point summary of the document's main points."
  else
    "Create a comprehensive summary of the document."

/-- The f-string prompt built by `GeminiSummarizer.summarize`: the combined
chunk text is truncated by `document_text[:50000]` before substitution. -/
def gemini_summary_prompt (chunks : List String) (summary_type : String) :
    String :=
  "\n        You are a professional document summarizer.\n        \n        DOCUMENT CONTENT:\n        "
    ++ pySlice (combined_document_text chunks) 50000
    ++ "\n        \n        TASK: "
    ++ get_summary_instruction summary_type
    ++ "\n        \n        Make sure the summary is accurate, well-structured, and captures the essence of the document.\n        "

/-- The system prompt built by `OpenAISummarizer.summarize` (the document
text goes into the user message instead). -/
def openai_summary_system_prompt (summary_type : String) : String :=
  "\n        You are a professional document summarizer.\n        \n        TASK: "
    ++ get_summary_instruction summary_type
    ++ "\n        \n        Make sure the summary is accurate, well-structured, and captures the essence of the document.\n        "

/-- The user message built by `OpenAISummarizer.summarize`:
`f"Here is the document to summarize:\n\n{document_text[:50000]}"`. -/
def openai_summary_user_message (chunks : List String) : String :=
  "Here is the document to summarize:\n\n"
    ++ pySlice (combined_document_text chunks) 50000

/-! ## Lemmas about the history store -/

/-- A feature absent from the dict has no binding. -/
theorem hdFind_eq_none (h : HistoryData) (f : String)
    (hm : hdMem h f = false) : hdFind h f = none := by
  induction h with
  | nil => rfl
  | cons kv rest ih =>
    simp only [hdMem, List.any_cons, Bool.or_eq_false_iff] at hm
    simp only [hdFind, List.find?, hm.1, Option.map]
    exact ih hm.2

/-- Setting a key makes it bound to the new value. -/
theorem hdFind_hdSet_self (h : HistoryData) (f : String) (v : List HEntry) :
    hdFind (hdSet h f v) f = some v := by
  induction h with
  | nil => simp [hdSet, hdFind, List.find?]
  | cons kv rest ih =>
    by_cases hk : kv.1 == f
    · simp [hdSet, hk, hdFind, List.find?]
    · simp only [hdSet, hk, if_false, Bool.false_eq_true]
      simp only [hdFind, List.find?, hk]
      exact ih

/-- Setting a key leaves every other key's binding unchanged. -/
theorem hdFind_hdSet_ne (h : HistoryData) (f g : String) (v : List HEntry)
    (hg : g ≠ f) : hdFind (hdSet h f v) g = hdFind h g := by
  induction h with
  | nil =>
    have : (f == g) = false := by
      simp only [beq_eq_false_iff_ne]; exact fun e => hg e.symm
    simp [hdSet, hdFind, List.find?, this]
  | cons kv rest ih =>
    by_cases hk : kv.1 == f
    · have hkf : kv.1 = f := by simpa [beq_iff_eq] using hk
      have h2 : (kv.1 == g) = false := by
        simp only [beq_eq_false_iff_ne, hkf]; exact fun e => hg e.symm
      simp [hdSet, hk, hdFind, List.find?, h2]
    · simp only [hdSet, hk, if_false, Bool.false_eq_true]
      simp only [hdFind, List.find?]
      cases hkg : kv.1 == g with
      | true => simp
      | false => simpa [hdFind] using ih

/-- Unfolding lemma for `dedupFirst` on a nonempty list. -/
theorem dedupFirst_cons (x : String) (xs : List String) :
    dedupFirst (x :: xs) = x :: dedupFirst (xs.filter (fun y => decide (y ≠ x))) := by
  rw [dedupFirst.eq_def]

/-- The loop of `get_recent_files` computes the `limit`-prefix of the
first-occurrence deduplication of the not-yet-seen names. -/
theorem grfLoop_eq (limit : Nat) (l : List HEntry) :
    ∀ (files seen : List String),
      grfLoop limit l files seen =
        files ++ (dedupFirst ((l.map HEntry.file_name).filter
          (fun y => decide (y ∉ seen)))).take (limit - files.length) := by
  induction l with
  | nil => intro files seen; simp [grfLoop, dedupFirst]
  | cons e rest ih =>
    intro files seen
    by_cases hx : e.file_name ∈ seen
    · rw [grfLoop, if_neg (by simp [hx]), ih]
      simp [List.filter_cons, hx]
    · by_cases hl : files.length < limit
      · rw [grfLoop, if_pos ⟨hx, hl⟩, ih]
        have hsub : limit - files.length = (limit - (files.length + 1)) + 1 := by
          omega
        have hfil : (rest.map HEntry.file_name).filter
              (fun y => decide (y ∉ e.file_name :: seen))
            = ((rest.map HEntry.file_name).filter
                (fun y => decide (y ∉ seen))).filter
                (fun y => decide (y ≠ e.file_name)) := by
          rw [List.filter_filter]
          apply List.filter_congr
          intro y _
          by_cases h1 : y = e.file_name <;> by_cases h2 : y ∈ seen <;>
            simp [h1, h2]
        have key : ((e :: rest).map HEntry.file_name).filter
              (fun y => decide (y ∉ seen))
            = e.file_name :: (rest.map HEntry.file_name).filter
                (fun y => decide (y ∉ seen)) := by
          simp [List.filter_cons, hx]
        rw [key, dedupFirst_cons, hsub, List.take_succ_cons, ← hfil]
        simp [List.append_assoc, List.length_append]
      · rw [grfLoop, if_neg (fun hc => hl hc.2), ih]
        have h0 : limit - files.length = 0 := by omega
        simp [h0]

/-- The example feature history of §8 of the spec: file names
`[A, B, A, C, D, A, E]`, oldest to newest. -/
def exampleEntries : List HEntry :=
  [⟨"t1", "A"⟩, ⟨"t2", "B"⟩, ⟨"t3", "A"⟩, ⟨"t4", "C"⟩, ⟨"t5", "D"⟩,
   ⟨"t6", "A"⟩, ⟨"t7", "E"⟩]

/-- A history whose `audio_to_text` feature holds `exampleEntries`. -/
def exampleHistory : HistoryData := [("audio_to_text", exampleEntries)]

/-- A full four-feature history used to exercise `clear_history`. -/
def exampleHistory4 : HistoryData :=
  [("pdf_to_text", [⟨"t0", "P"⟩]), ("audio_to_text", exampleEntries),
   ("chat_with_doc", []), ("summarizer", [])]

/-! ## Claim C1 -/

/-- C1 counterexample: on a feature history whose file names are
`[A, B, A, C, D, A, E]` (oldest to newest), `get_recent_files(feature, 5)`
returns `[E, A, D, C, B]` — A is the second most recent distinct name — and
not `[E, D, C, A]` as claimed. -/
theorem get_recent_files_example_ne_claim :
    get_recent_files exampleHistory "audio_to_text" 5 = ["E", "A", "D", "C", "B"] ∧
    get_recent_files exampleHistory "audio_to_text" 5 ≠ ["E", "D", "C", "A"] := by
  constructor <;> decide

/-- C1 (amended): `get_recent_files(feature, limit)` returns the most recent
distinct file names, deduplicated by name, most-recent-first, scanning from
the tail of the feature's entry list — precisely, the `limit`-prefix of the
first-occurrence deduplication of the reversed name list — with result length
at most `limit`; on a feature history whose file names are
`[A, B, A, C, D, A, E]` (oldest to newest), `get_recent_files(feature, 5)`
returns exactly `[E, A, D, C, B]`. -/
theorem get_recent_files_spec (h : HistoryData) (feature : String)
    (limit : Nat) :
    get_recent_files h feature limit =
      (dedupFirst ((((hdFind h feature).getD []).reverse).map
        HEntry.file_name)).take limit ∧
    (get_recent_files h feature limit).length ≤ limit ∧
    get_recent_files exampleHistory "audio_to_text" 5 = ["E", "A", "D", "C", "B"] := by
  have hmain : get_recent_files h feature limit =
      (dedupFirst ((((hdFind h feature).getD []).reverse).map
        HEntry.file_name)).take limit := by
    unfold get_recent_files
    cases hm : hdMem h feature with
    | false =>
      rw [hdFind_eq_none h feature hm]
      simp [dedupFirst]
    | true =>
      simp only [Bool.true_eq_false, if_false]
      rw [grfLoop_eq]
      simp
  refine ⟨hmain, ?_, by decide⟩
  rw [hmain]
  simp [List.length_take]

/-! ## Claim C9 -/

/-- C9: clearing one feature's history empties that feature's entry list and
leaves every other feature's binding unchanged; clearing with no feature
argument resets the mapping to the four named features, each with an empty
list. -/
theorem clear_history_spec (h : HistoryData) (f g : String) (hg : g ≠ f) :
    ((hdFind (clear_history h (some f)) f).getD []) = [] ∧
    hdFind (clear_history h (some f)) g = hdFind h g ∧
    clear_history h none = init_history := by
  refine ⟨?_, ?_, rfl⟩
  · unfold clear_history
    cases hm : hdMem h f with
    | false =>
      simp only [hm, Bool.false_eq_true, if_false]
      rw [hdFind_eq_none h f hm]
      rfl
    | true =>
      simp only [hm, if_true]
      rw [hdFind_hdSet_self]
      rfl
  · unfold clear_history
    cases hm : hdMem h f with
    | false => simp [hm]
    | true =>
      simp only [hm, if_true]
      exact hdFind_hdSet_ne h f g [] hg

/-- C9 witness: a concrete four-feature history where clearing
`audio_to_text` empties it and leaves `pdf_to_text` untouched. -/
theorem clear_history_spec_witness :
    ((hdFind (clear_history exampleHistory4 (some "audio_to_text"))
        "audio_to_text").getD []) = [] ∧
    hdFind (clear_history exampleHistory4 (some "audio_to_text"))
        "pdf_to_text" = hdFind exampleHistory4 "pdf_to_text" ∧
    clear_history exampleHistory4 none = init_history :=
  clear_history_spec exampleHistory4 "audio_to_text" "pdf_to_text" (by decide)

/-! ## Lemmas about joining page results -/

/-- `String.join` distributes over cons. -/
theorem join_cons (x : String) (xs : List String) :
    String.join (x :: xs) = x ++ String.join xs := by
  apply String.ext
  simp [String.join_eq]

/-- Auxiliary unfolding of `String.intercalate.go`. -/
theorem go_join (s : String) : ∀ (as : List String) (acc : String),
    String.intercalate.go acc s as
      = acc ++ String.join (as.map (fun b => s ++ b)) := by
  intro as
  induction as with
  | nil =>
    intro acc
    have hj : String.join [] = "" := rfl
    simp [String.intercalate.go, hj, String.append_empty]
  | cons b bs ih =>
    intro acc
    rw [String.intercalate.go, ih]
    simp [join_cons, String.append_assoc]

/-- Auxiliary form of joining an interspersed list. -/
theorem join_intersperse_aux (s : String) : ∀ (as : List String) (a : String),
    String.join (List.intersperse s (a :: as))
      = a ++ String.join (as.map (fun b => s ++ b)) := by
  intro as
  induction as with
  | nil => intro a; simp [List.intersperse_singleton, join_cons]
  | cons b bs ih =>
    intro a
    rw [List.intersperse_cons_cons, join_cons, join_cons, ih b]
    simp [join_cons, String.append_assoc]

/-- Python `sep.join(parts)` (`String.intercalate`) concatenates the parts
with exactly one separator between consecutive parts. -/
theorem intercalate_eq_join_intersperse (s : String) (l : List String) :
    String.intercalate s l = String.join (l.intersperse s) := by
  cases l with
  | nil => rfl
  | cons a as => rw [String.intercalate, go_join, join_intersperse_aux]

/-- When no part equals the separator, the interspersed join sequence
contains the separator exactly `length - 1` times. -/
theorem count_intersperse (sep : String) :
    ∀ (l : List String), (∀ p ∈ l, p ≠ sep) →
      (l.intersperse sep).count sep = l.length - 1 := by
  intro l
  induction l with
  | nil => intro _; simp
  | cons a t ih =>
    intro h
    have ha : (a == sep) = false := by
      simp only [beq_eq_false_iff_ne]
      exact h a (by simp)
    cases t with
    | nil => simp [List.intersperse_singleton, List.count_cons, ha]
    | cons b t2 =>
      have hrest : (List.intersperse sep (b :: t2)).count sep
          = (b :: t2).length - 1 :=
        ih (fun p hp => h p (List.mem_cons_of_mem a hp))
      rw [List.intersperse_cons_cons]
      simp only [List.count_cons, ha, hrest]
      simp [List.length_cons]

/-- The `i`-th element of the per-page result list is the `i`-th page's
result. -/
theorem pages_getD (f : Nat → String) (N i : Nat) (hi : i < N) :
    ((List.range N).map f).getD i "" = f i := by
  rw [List.getD_eq_getElem?_getD, List.getElem?_map, List.getElem?_range hi]
  rfl

/-! ## Claim C2 -/

/-- Under identical collaborator behaviour, a single page produces the same
result string in both backends. -/
theorem openaiPage_eq_geminiPage (genv : GeminiEnv) (oenv : OpenAIEnv)
    (hr : genv.raster = oenv.raster)
    (ht : ∀ i img, oenv.tempWrite i img = .ok ())
    (hrem : ∀ img,
      oenv.remote ("data:image/png;base64," ++ oenv.b64 img) = genv.remote img)
    (total i : Nat) :
    openaiPage oenv total i = geminiPage genv total i := by
  unfold openaiPage geminiPage
  rw [hr]
  cases hri : oenv.raster i with
  | error e => rfl
  | ok img =>
    simp only [ht i img, hrem img]

/-- C2: for every PDF and every fixed behaviour of the remote vision
endpoint — the same per-page raster result, and per-image remote responses
that agree once the OpenAI backend's temp-file round trip and base64 data
URI wrapping are taken into account — the Gemini-backed and OpenAI-backed
extractors return the same final text. -/
theorem vision_extractors_equivalent (genv : GeminiEnv) (oenv : OpenAIEnv)
    (hk : genv.keyAvailable = true) (hk2 : oenv.keyAvailable = true)
    (hc : genv.configure = .ok ()) (hc2 : oenv.configure = .ok ())
    (hm : genv.mkModel = .ok ()) (hm2 : oenv.mkClient = .ok ())
    (ho : genv.openPdf = oenv.openPdf)
    (hcl : genv.closeDoc = oenv.closeDoc)
    (hr : genv.raster = oenv.raster)
    (ht : ∀ i img, oenv.tempWrite i img = .ok ())
    (hrem : ∀ img,
      oenv.remote ("data:image/png;base64," ++ oenv.b64 img) = genv.remote img) :
    gemini_extract_text genv = openai_extract_text oenv := by
  unfold gemini_extract_text openai_extract_text
  simp only [hk, hk2, hc, hc2, hm, hm2, ho, hcl]
  cases oenv.openPdf with
  | error e => rfl
  | ok total =>
    have hpage : geminiPage genv total = openaiPage oenv total :=
      funext (fun i => (openaiPage_eq_geminiPage genv oenv hr ht hrem total i).symm)
    simp [hpage]

/-- The list `all_pages_text_content` built by the Gemini page loop when the
PDF opened with `N` pages. -/
def geminiPages (env : GeminiEnv) (N : Nat) : List String :=
  (List.range N).map (geminiPage env N)

/-- The list `all_pages_text_content` built by the OpenAI page loop when the
PDF opened with `M` pages. -/
def openaiPages (env : OpenAIEnv) (M : Nat) : List String :=
  (List.range M).map (openaiPage env M)

/-- A two-page demo environment for the Gemini extractor whose first page
succeeds and whose second page fails to rasterize. -/
def gEnvDemo : GeminiEnv where
  keyAvailable := true
  configure := .ok ()
  openPdf := .ok 2
  mkModel := .ok ()
  raster := fun i => if i = 0 then .ok "PNGBYTES" else .error "raster boom"
  remote := fun _ => .ok "hello page"
  closeDoc := .ok ()

/-- The matching two-page demo environment for the OpenAI extractor. -/
def oEnvDemo : OpenAIEnv where
  keyAvailable := true
  configure := .ok ()
  mkClient := .ok ()
  openPdf := .ok 2
  raster := fun i => if i = 0 then .ok "PNGBYTES" else .error "raster boom"
  tempWrite := fun _ _ => .ok ()
  b64 := fun img => img ++ "#b64"
  remote := fun _ => .ok "hello page"
  closeDoc := .ok ()

/-- C2 witness: on the concrete two-page environments (one good page, one
failing page, endpoint responses agreeing across backends) the two
extractors return the same final text. -/
theorem vision_extractors_equivalent_witness :
    gemini_extract_text gEnvDemo = openai_extract_text oEnvDemo :=
  vision_extractors_equivalent gEnvDemo oEnvDemo rfl rfl rfl rfl rfl rfl rfl
    rfl rfl (fun _ _ => rfl) (fun _ => rfl)

/-! ## Claim C3 -/

/-- C3: when a vision extractor runs with its key configured and the PDF
opened with `N` (resp. `M`) pages, the returned text is the page-result list
joined with exactly one `"\n\n--- Page Break ---\n\n"` separator between
consecutive entries; the list has one entry per page, the `i`-th entry being
page `i`'s own outcome (text, blank-page placeholder or error marker) even
when other pages fail; and as long as no page outcome equals the separator
string itself, the joined sequence contains the separator exactly `N - 1`
(resp. `M - 1`) times. -/
theorem vision_page_structure (genv : GeminiEnv) (oenv : OpenAIEnv) (N M : Nat)
    (hk : genv.keyAvailable = true) (hc : genv.configure = .ok ())
    (hm : genv.mkModel = .ok ()) (ho : genv.openPdf = .ok N)
    (hcl : genv.closeDoc = .ok ())
    (hk2 : oenv.keyAvailable = true) (hc2 : oenv.configure = .ok ())
    (hm2 : oenv.mkClient = .ok ()) (ho2 : oenv.openPdf = .ok M)
    (hcl2 : oenv.closeDoc = .ok ()) :
    (gemini_extract_text genv
        = .ok (String.join ((geminiPages genv N).intersperse pageBreakSep)) ∧
      (geminiPages genv N).length = N ∧
      (∀ i, i < N → (geminiPages genv N).getD i "" = geminiPage genv N i) ∧
      ((∀ i, i < N → geminiPage genv N i ≠ pageBreakSep) →
        ((geminiPages genv N).intersperse pageBreakSep).count pageBreakSep
          = N - 1)) ∧
    (openai_extract_text oenv
        = .ok (String.join ((openaiPages oenv M).intersperse pageBreakSep)) ∧
      (openaiPages oenv M).length = M ∧
      (∀ i, i < M → (openaiPages oenv M).getD i "" = openaiPage oenv M i) ∧
      ((∀ i, i < M → openaiPage oenv M i ≠ pageBreakSep) →
        ((openaiPages oenv M).intersperse pageBreakSep).count pageBreakSep
          = M - 1)) := by
  constructor
  · refine ⟨?_, ?_, ?_, ?_⟩
    · unfold gemini_extract_text
      simp only [hk, hc, ho, hm, hcl, ite_self]
      rw [intercalate_eq_join_intersperse]
      simp [geminiPages]
    · simp [geminiPages]
    · intro i hi
      exact pages_getD (geminiPage genv N) N i hi
    · intro hsep
      rw [count_intersperse]
      · simp [geminiPages]
      · intro p hp
        simp only [geminiPages, List.mem_map] at hp
        obtain ⟨i, hi, rfl⟩ := hp
        exact hsep i (List.mem_range.mp hi)
  · refine ⟨?_, ?_, ?_, ?_⟩
    · unfold openai_extract_text
      simp only [hk2, hc2, ho2, hm2, hcl2, ite_self]
      rw [intercalate_eq_join_intersperse]
      simp [openaiPages]
    · simp [openaiPages]
    · intro i hi
      exact pages_getD (openaiPage oenv M) M i hi
    · intro hsep
      rw [count_intersperse]
      · simp [openaiPages]
      · intro p hp
        simp only [openaiPages, List.mem_map] at hp
        obtain ⟨i, hi, rfl⟩ := hp
        exact hsep i (List.mem_range.mp hi)

/-- C3 witness: the two-page demo environments, in which page 1 succeeds and
page 2 fails, still produce one result slot per page and exactly one
separator. -/
theorem vision_page_structure_witness :
    gemini_extract_text gEnvDemo
        = .ok (String.join ((geminiPages gEnvDemo 2).intersperse pageBreakSep)) ∧
    (geminiPages gEnvDemo 2).length = 2 ∧
    ((geminiPages gEnvDemo 2).intersperse pageBreakSep).count pageBreakSep = 1 ∧
    openai_extract_text oEnvDemo
        = .ok (String.join ((openaiPages oEnvDemo 2).intersperse pageBreakSep)) ∧
    ((openaiPages oEnvDemo 2).intersperse pageBreakSep).count pageBreakSep = 1 := by
  have h := vision_page_structure gEnvDemo oEnvDemo 2 2 rfl rfl rfl rfl rfl rfl
    rfl rfl rfl rfl
  exact ⟨h.1.1, h.1.2.1, h.1.2.2.2 (by decide), h.2.1, h.2.2.2.2 (by decide)⟩

/-! ## Claim C4 -/

/-- Whether a run of `process` returned a string (rather than letting an
exception escape the strategy boundary). -/
def returnsString : Except String String → Bool
  | .ok _ => true
  | .error _ => false

/-- A Gemini environment in which the collaborator call
`genai.GenerativeModel(self.model_name)` — which the source places outside
any `try` block — raises. -/
def gEnvRaise : GeminiEnv where
  keyAvailable := true
  configure := .ok ()
  openPdf := .ok 1
  mkModel := .error "GenerativeModel construction failed"
  raster := fun _ => .ok "PNGBYTES"
  remote := fun _ => .ok "hello page"
  closeDoc := .ok ()

/-- C4 counterexample: with a valid key and a 1-page PDF, an exception raised
by the model-construction collaborator propagates out of
`DocumentProcessor.process` (the call sits outside every `try` block in
`GeminiPDFExtractor.extract_text`), so `process` does not always return a
string. -/
theorem process_propagates_counterexample :
    process (some (.gemini gEnvRaise))
      = .error "GenerativeModel construction failed" := by
  simp [process, strategy_extract_text, gemini_extract_text, gEnvRaise]

/-- C4 (amended): `process` with no strategy set returns the error-tagged
string `"[Error: No extraction strategy selected]"`; the direct-text PDF and
DOCX strategies return a string for every collaborator behaviour; and the two
vision strategies return a string (extracted text or error-tagged) for every
behaviour of the collaborators invoked inside the guarded regions — file
open, per-page rasterization, temp-file round trip, per-page remote call —
provided the SDK configuration, the client/model construction and the
document close (which the source invokes outside any `try` block) do not
themselves raise. -/
theorem process_fail_soft :
    process none = .ok "[Error: No extraction strategy selected]" ∧
    (∀ env : LangchainEnv,
      returnsString (process (some (.langchain env))) = true) ∧
    (∀ env : DocxEnv, returnsString (process (some (.docx env))) = true) ∧
    (∀ env : GeminiEnv, env.configure = .ok () → env.mkModel = .ok () →
      env.closeDoc = .ok () →
      returnsString (process (some (.gemini env))) = true) ∧
    (∀ env : OpenAIEnv, env.configure = .ok () → env.mkClient = .ok () →
      env.closeDoc = .ok () →
      returnsString (process (some (.openai env))) = true) := by
  refine ⟨rfl, ?_, ?_, ?_, ?_⟩
  · intro env
    cases hl : env.loadPdf <;>
      simp [process, strategy_extract_text, langchain_extract_text, hl,
        returnsString]
  · intro env
    cases hl : env.openDocx <;>
      simp [process, strategy_extract_text, docx_extract_text, hl,
        returnsString]
  · intro env hc hm hcl
    cases hk : env.keyAvailable with
    | false =>
      simp [process, strategy_extract_text, gemini_extract_text, hk,
        returnsString]
    | true =>
      cases ho : env.openPdf with
      | error e =>
        simp [process, strategy_extract_text, gemini_extract_text, hk, hc, ho,
          returnsString]
      | ok total =>
        simp [process, strategy_extract_text, gemini_extract_text, hk, hc, ho,
          hm, hcl, ite_self, returnsString]
  · intro env hc hm hcl
    cases hk : env.keyAvailable with
    | false =>
      simp [process, strategy_extract_text, openai_extract_text, hk,
        returnsString]
    | true =>
      cases ho : env.openPdf with
      | error e =>
        simp [process, strategy_extract_text, openai_extract_text, hk, hc, ho,
          hm, returnsString]
      | ok total =>
        simp [process, strategy_extract_text, openai_extract_text, hk, hc, ho,
          hm, hcl, ite_self, returnsString]

/-- C4 witness: the amended theorem applied to the concrete demo
environment (whose unguarded collaborator calls all succeed). -/
theorem process_fail_soft_witness :
    returnsString (process (some (.gemini gEnvDemo))) = true :=
  process_fail_soft.2.2.2.1 gEnvDemo rfl rfl rfl

/-! ## Claim C5 -/

/-- C5: when the selected engine's API key is absent, `extract_text` returns
the corresponding not-configured error string, for every behaviour of all
file-access collaborators — in particular the result does not depend on
`openPdf` or `raster`, so no file I/O is observed. -/
theorem missing_key_short_circuits (genv : GeminiEnv) (oenv : OpenAIEnv)
    (hg : genv.keyAvailable = false) (ho : oenv.keyAvailable = false) :
    gemini_extract_text genv = .ok "[Error: Gemini API key not configured]" ∧
    openai_extract_text oenv = .ok "[Error: OpenAI API key not configured]" := by
  constructor
  · simp [gemini_extract_text, hg]
  · simp [openai_extract_text, ho]

/-- A key-less Gemini environment whose every file-access collaborator
would fail if it were ever consulted. -/
def gEnvNoKey : GeminiEnv where
  keyAvailable := false
  configure := .error "never configured"
  openPdf := .error "file was never opened"
  mkModel := .error "never constructed"
  raster := fun _ => .error "never rasterized"
  remote := fun _ => .error "never called"
  closeDoc := .error "never closed"

/-- A key-less OpenAI environment whose every file-access collaborator
would fail if it were ever consulted. -/
def oEnvNoKey : OpenAIEnv where
  keyAvailable := false
  configure := .error "never configured"
  mkClient := .error "never constructed"
  openPdf := .error "file was never opened"
  raster := fun _ => .error "never rasterized"
  tempWrite := fun _ _ => .error "never written"
  b64 := fun img => img
  remote := fun _ => .error "never called"
  closeDoc := .error "never closed"

/-- C5 witness: concrete key-less environments in which every file access
would fail, yet the extractors return the not-configured strings. -/
theorem missing_key_short_circuits_witness :
    gemini_extract_text gEnvNoKey
        = .ok "[Error: Gemini API key not configured]" ∧
    openai_extract_text oEnvNoKey
        = .ok "[Error: OpenAI API key not configured]" :=
  missing_key_short_circuits gEnvNoKey oEnvNoKey rfl rfl

/-! ## Claim C6 -/

/-- C6: `load_document` always returns exactly one of `(chunks, null)` or
`(null, error_message)`, and an extension that is neither `.pdf` nor `.docx`
yields the ordinary returned error `(null, "Unsupported file type")`. -/
theorem load_document_spec (env : LoaderEnv) (file_path : String) :
    (((load_document env file_path).1.isSome = true ∧
        (load_document env file_path).2 = none) ∨
      ((load_document env file_path).1 = none ∧
        (load_document env file_path).2.isSome = true)) ∧
    ((pyLower (splitext file_path).2 ≠ ".pdf" ∧
        pyLower (splitext file_path).2 ≠ ".docx") →
      load_document env file_path = (none, some "Unsupported file type")) := by
  by_cases hpdf : pyLower (splitext file_path).2 = ".pdf"
  · refine ⟨?_, fun hx => absurd hpdf hx.1⟩
    unfold load_document
    rw [if_pos hpdf]
    cases hl : env.loadPdf with
    | error e => right; simp [hl]
    | ok docs =>
      cases hs : env.split docs with
      | error e => right; simp [hl, hs]
      | ok chunks => left; simp [hl, hs]
  · by_cases hdocx : pyLower (splitext file_path).2 = ".docx"
    · refine ⟨?_, fun hx => absurd hdocx hx.2⟩
      unfold load_document
      rw [if_neg hpdf, if_pos hdocx]
      cases hl : env.loadDocx with
      | error e => right; simp [hl]
      | ok docs =>
        cases hs : env.split docs with
        | error e => right; simp [hl, hs]
        | ok chunks => left; simp [hl, hs]
    · have hu : load_document env file_path
          = (none, some "Unsupported file type") := by
        unfold load_document
        rw [if_neg hpdf, if_neg hdocx]
      exact ⟨by rw [hu]; right; simp, fun _ => hu⟩

/-- A loader environment in which both format loaders and the splitter
succeed. -/
def loaderEnvDemo : LoaderEnv where
  loadPdf := .ok ["pdf page one"]
  loadDocx := .ok ["docx text"]
  split := fun docs => .ok docs

/-- C6 witness: a `.txt` path is rejected with the returned error pair, not
an exception. -/
theorem load_document_spec_witness :
    load_document loaderEnvDemo "notes.txt"
      = (none, some "Unsupported file type") :=
  (load_document_spec loaderEnvDemo "notes.txt").2 (by constructor <;> decide)

/-! ## Claim C7 -/

/-- Taking the first five chunks is idempotent for the context builder. -/
theorem get_document_context_take (chunks : List String) :
    get_document_context (chunks.take 5) 5 = get_document_context chunks 5 := by
  unfold get_document_context
  rw [List.take_take]
  simp

/-- C7: both chat engines build their prompt from at most the first 5 chunks:
the constructed document context, and the entire response computation, are
unchanged when the chunk list is replaced by its 5-element prefix, for every
query, history and backend behaviour. -/
theorem chat_first_five_chunks (genv : GeminiChatEnv) (oenv : OpenAIChatEnv)
    (query : String) (chunks : List String) (ghist ohist : List String) :
    get_document_context chunks 5 = get_document_context (chunks.take 5) 5 ∧
    gemini_generate_response genv query chunks ghist
      = gemini_generate_response genv query (chunks.take 5) ghist ∧
    openai_generate_response oenv query chunks ohist
      = openai_generate_response oenv query (chunks.take 5) ohist := by
  refine ⟨(get_document_context_take chunks).symm, ?_, ?_⟩
  · cases chunks with
    | nil => rfl
    | cons a l =>
      unfold gemini_generate_response
      rw [get_document_context_take,
        show (List.take 5 (a :: l)).isEmpty = false from rfl,
        show (a :: l).isEmpty = false from rfl]
  · cases chunks with
    | nil => rfl
    | cons a l =>
      unfold openai_generate_response
      rw [get_document_context_take,
        show (List.take 5 (a :: l)).isEmpty = false from rfl,
        show (a :: l).isEmpty = false from rfl]

/-! ## Claim C10 -/

/-- C10: with an empty chunk list both chat engines return the fixed string
`"Please upload a document first."` for every environment — including ones
with no API key configured, since the empty-document check precedes the
credential check — and every query and history. -/
theorem empty_chunks_upload_message (genv : GeminiChatEnv)
    (oenv : OpenAIChatEnv) (query : String) (ghist ohist : List String) :
    gemini_generate_response genv query [] ghist
        = .ok "Please upload a document first." ∧
    openai_generate_response oenv query [] ohist
        = .ok "Please upload a document first." :=
  ⟨rfl, rfl⟩

/-! ## Claim C8 -/

/-- Six synthetic chunks: if the summarizer capped at five chunks, the sixth
could never influence the prompt. -/
def demoChunks : List String := ["c1", "c2", "c3", "c4", "c5", "c6"]

/-- C8: the summarizer prompt embeds the concatenation of all chunks (a
sixth chunk changes the prompt, unlike the chat engines' 5-chunk cap),
truncated to at most the first 50,000 characters; when the combined text is
within 50,000 characters it is embedded in full. -/
theorem summarizer_truncation (chunks : List String) :
    (pySlice (combined_document_text chunks) 50000).length ≤ 50000 ∧
    ((combined_document_text chunks).length ≤ 50000 →
      pySlice (combined_document_text chunks) 50000
        = combined_document_text chunks) ∧
    gemini_summary_prompt demoChunks "concise"
      ≠ gemini_summary_prompt (demoChunks.take 5) "concise" ∧
    openai_summary_user_message demoChunks
      ≠ openai_summary_user_message (demoChunks.take 5) := by
  refine ⟨?_, ?_, by decide, by decide⟩
  · have h1 : (pySlice (combined_document_text chunks) 50000).length
        = ((combined_document_text chunks).data.take 50000).length := rfl
    rw [h1, List.length_take]
    exact inf_le_left
  · intro hle
    have hdata : (combined_document_text chunks).data.length ≤ 50000 := hle
    have h2 : (combined_document_text chunks).data.take 50000
        = (combined_document_text chunks).data := List.take_of_length_le hdata
    show String.mk ((combined_document_text chunks).data.take 50000)
        = combined_document_text chunks
    rw [h2]

/-- C8 witness: a short document's combined text is embedded in the prompt
untruncated. -/
theorem summarizer_truncation_witness :
    pySlice (combined_document_text ["alpha"]) 50000
      = combined_document_text ["alpha"] :=
  (summarizer_truncation ["alpha"]).2.1 (by decide)
